import Mathlib

/-!
# Verification of the MALWAKARI quiz server (src/server.js)

Shallow embedding of the room/round state machine of `src/server.js`:
room state, answer matching, scoring, the timer-expiry callback, the
`submitAnswer`, `joinRoom` and `continueGame` socket handlers, `startRound`,
`sendQuestion`, and the 60-second disuse-deletion check.

Conventions of the embedding:
* JS `null`/`undefined` fields are modelled with `Option`.
* JS numbers that the code treats as integers are `Int` (they may go
  negative, e.g. `lives`) or `Nat` where the code can only produce
  non-negative values (e.g. `round`, `cumulativeScore`).
* `Math.random()`-based choice is modelled by an arbitrary natural number
  `rand` reduced modulo the candidate count, which covers every choice the
  code can make.
* The JS `RegExp` engine is a foreign semantics; `matchAnswer` is
  parametrised by a total function `regexTest pat flags input : Bool` that
  stands for `try { new RegExp(pat,flags).test(input) } catch { false }`.
* `io.to(...).emit(...)` calls are collected into an ordered list of
  `Emit` values; `setTimeout(() => startRound(...), 1500)` is recorded as a
  `scheduled` flag; `stopTimer` as a `stopped` flag.
-/

namespace Malwakari

/-- Room status strings used by server.js: 'waiting' | 'playing' | 'between'. -/
inductive Status where
  | waiting
  | playing
  | between
deriving DecidableEq, Repr

/-- `roles.A` / `roles.B` entries of a challenge: `{ view: ... }` where the
`view` field may be absent (`specimen.roles?.[role]?.view || ''`). -/
structure RoleView where
  view : Option String
deriving DecidableEq, Repr

/-- The `roles` object of a challenge; either per-role entry may be absent. -/
structure Roles where
  A : Option RoleView
  B : Option RoleView
deriving DecidableEq, Repr

/-- An answer specification `{ type, pattern?, flags?, value? }`.
`type` is a plain string ('regex' | 'exact' | anything else). -/
structure AnswerConf where
  type : String
  pattern : Option String := none
  flags : Option String := none
  value : Option String := none
deriving DecidableEq, Repr

/-- A challenge record from the JSON catalog.  Fields whose absence the code
handles (`level?.toLowerCase()`, `baseScore || 100`, `timeLimitSec || 60`,
`roles?.`, missing `answer` ⇒ NO_QUESTION) are `Option`s. -/
structure Challenge where
  title : String
  level : Option String := none
  baseScore : Option Nat := none
  timeLimitSec : Option Nat := none
  roles : Option Roles := none
  answer : Option AnswerConf := none
deriving DecidableEq, Repr

/-- Room state as initialised by the `createRoom` handler and mutated by the
other handlers.  `ready` models the `r.ready` object as the list of socket
ids mapped to `true`. -/
structure RoomState where
  playersA : Option String
  playersB : Option String
  waiting : List String
  status : Status
  currentIdx : Option Nat
  usedIndices : List Nat
  expiresAt : Option Int
  timeLimitSec : Nat
  round : Nat
  cumulativeScore : Nat
  mode : Option String
  lives : Option Int
  ready : List String
  currentBig : Option Challenge
deriving DecidableEq, Repr

/-- Payload of a `newQuestion` emit (built in `sendQuestion`). -/
structure NewQuestionPayload where
  title : String
  baseScore : Option Nat
  timeLimitSec : Nat
  view : String
  role : String
deriving DecidableEq, Repr

/-- Payload of a `gameStarted` emit (built in `startRound`, round 0). -/
structure GameStartedPayload where
  cumulativeScore : Nat
  role : String
  view : String
  title : String
  lives : Option Int
  mode : Option String
deriving DecidableEq, Repr

/-- One `io.to(...).emit(...)` call.  The unicast emits carry the target
socket id. -/
inductive Emit where
  | timer (remainMs : Int)
  | livesUpdate (lives : Int)
  | gameFinished (message : String) (totalscore : Nat)
  | roundTimeout (round : Nat) (nextInMs : Nat)
  | system (message : String)
  | gameStarted (target : String) (payload : GameStartedPayload)
  | newQuestion (target : String) (payload : NewQuestionPayload)
  | answerResult (correct : Bool) (score : Option Nat) (cumulativeScore : Option Nat)
  | updateScore (cumulativeScore : Nat)
  | roomUpdate (a : Bool) (b : Bool) (waiting : Nat)
  | readyUpdate (a : Bool) (b : Bool)
  | roomReset (message : String)
deriving DecidableEq, Repr

/-- Is the emit a `gameFinished` notification? -/
def Emit.isGameFinished : Emit → Bool
  | .gameFinished _ _ => true
  | _ => false

/-- JS `String.prototype.trim()`: strip leading and trailing whitespace. -/
def trimJS (s : String) : String :=
  ⟨((s.data.dropWhile Char.isWhitespace).reverse.dropWhile Char.isWhitespace).reverse⟩

/-- JS `String.prototype.toLowerCase()` (ASCII case mapping). -/
def toLowerJS (s : String) : String :=
  ⟨s.data.map Char.toLower⟩

/-- `const normalize = s => (s ?? '').toString().trim();`
`none` models JS `null`/`undefined`. -/
def normalize : Option String → String
  | none => ""
  | some s => trimJS s

/-- JS truthiness of the submitted answer (`!ans` in `matchAnswer`): among
strings only `''` is falsy; `null`/`undefined` are falsy. -/
def ansTruthy : Option String → Bool
  | none => false
  | some s => s ≠ ""

/-- `matchAnswer(conf, ans)` from server.js.  `regexTest` stands for the JS
regex engine with compile-failure-as-false folded in (the `try`/`catch`). -/
def matchAnswer (regexTest : String → String → String → Bool)
    (conf : Option AnswerConf) (ans : Option String) : Bool :=
  match conf with
  | none => false
  | some c =>
    if ¬ ansTruthy ans then false
    else
      let f := normalize ans
      if c.type = "regex" then
        let pat := c.pattern.getD ""
        let flg := c.flags.getD ""
        if pat.data.take 4 = ['(', '?', 'i', ')'] then
          let flg' := if flg.data.contains 'i' then flg else flg ++ "i"
          regexTest ⟨pat.data.drop 4⟩ flg' f
        else
          regexTest pat flg f
      else if c.type = "exact" then
        toLowerJS f = toLowerJS (c.value.getD "")
      else
        false

/-- `pickRandomUnusedIndex(r)` from server.js (a helper that resets
`usedIndices` on exhaustion; it is defined in the file but `startRound` does
not call it).  Returns the updated `usedIndices` together with the chosen
index; `rand` models the `Math.random()` draws. -/
def pickRandomUnusedIndex (numChallenges : Nat) (usedIndices : List Nat)
    (rand : Nat) : List Nat × Nat :=
  if numChallenges ≤ 1 then (usedIndices, 0)
  else
    let remain := (List.range numChallenges).filter (fun i => ¬ usedIndices.contains i)
    if remain.isEmpty then ([], rand % numChallenges)
    else (usedIndices, remain.getD (rand % remain.length) 0)

/-- `r.currentBig.baseScore || 100` — a missing or zero base score falls back
to 100. -/
def effBaseScore : Option Nat → Nat
  | none => 100
  | some b => if b = 0 then 100 else b

/-- The score computation of the correct branch of the `submitAnswer`
handler.  `totalSec` is `r.timeLimitSec` — the ROOM's stored time limit, not
the current challenge's. -/
def computeScore (baseScore : Option Nat) (totalSec : Nat) (remainMs : Int) : Nat :=
  let rawScore : Int := effBaseScore baseScore
  let remainSec : Int := Int.fdiv remainMs 1000
  let elapsedSec : Int := (totalSec : Int) - remainSec
  let deducted : Int := rawScore - 1 * elapsedSec
  (max 0 deducted).toNat

/-- `view || ''` on an optional `roles.X` entry. -/
def viewText : Option RoleView → String
  | none => ""
  | some rv => rv.view.getD ""

/-- `specimen.roles?.A?.view || ''`. -/
def viewForA : Option Roles → String
  | none => ""
  | some rls => viewText rls.A

/-- `specimen.roles?.B?.view || ''`. -/
def viewForB : Option Roles → String
  | none => ""
  | some rls => viewText rls.B

/-- The `switch (r.mode)` in `startRound` mapping the mode string to the
accepted difficulty tags (any other value, including `null`, falls back to
`['normal']`). -/
def levelKeysOf (mode : Option String) : List String :=
  if mode = some "Easy" then ["easy"]
  else if mode = some "Normal" then ["normal"]
  else if mode = some "Hard" then ["hard"]
  else ["normal"]

/-- `levelKeys.includes(specimen.level?.toLowerCase())`: an absent `level`
never matches (JS `includes(undefined)` on a list of strings). -/
def levelMatches (keys : List String) (level : Option String) : Bool :=
  match level with
  | none => false
  | some l => keys.contains (toLowerJS l)

/-- The lazy life initialisation shared by the timer callback and the wrong
branch of `submitAnswer`:
`if (lives == null) lives = mode === 'Hard' ? 3 : 5` — the value the
deduction then starts from. -/
def effLivesInit (r : RoomState) : Int :=
  match r.lives with
  | none => if r.mode = some "Hard" then 3 else 5
  | some l => l

/-- Result of one firing of the `startTimer` interval callback.  `stopped`
records a `stopTimer` call, `scheduled` a `setTimeout(startRound, 1500)`. -/
structure TickOut where
  room : Option RoomState
  emits : List Emit
  stopped : Bool
  scheduled : Bool
deriving DecidableEq, Repr

/-- One firing of the interval callback installed by `startTimer`
(server.js lines 111–147), at wall-clock time `now`. -/
def onTick (oroom : Option RoomState) (now : Int) : TickOut :=
  match oroom with
  | none => ⟨none, [], true, false⟩
  | some rm =>
    if rm.status ≠ .playing then ⟨some rm, [], true, false⟩
    else
      let remainMs : Int := max 0 (rm.expiresAt.getD 0 - now)
      if remainMs ≤ 0 then
        if rm.mode = some "Hard" ∨ rm.mode = some "Normal" then
          let lives1 := effLivesInit rm - 1
          let rm1 := { rm with lives := some lives1 }
          if lives1 ≤ 0 then
            ⟨some rm1,
             [.timer remainMs, .livesUpdate lives1,
              .gameFinished "ライフが尽きました…ゲーム終了！" rm1.cumulativeScore],
             true, false⟩
          else
            ⟨some { rm1 with status := .between },
             [.timer remainMs, .livesUpdate lives1, .roundTimeout rm1.round 1500],
             true, true⟩
        else
          ⟨some { rm with status := .between },
           [.timer remainMs, .roundTimeout rm.round 1500],
           true, true⟩
      else
        ⟨some rm, [.timer remainMs], false, false⟩

/-- Result of `sendQuestion`: updated room, emits, whether `startTimer` ran. -/
structure SendOut where
  room : RoomState
  emits : List Emit
  timerStarted : Bool
deriving DecidableEq, Repr

/-- `r.currentBig.timeLimitSec || 60` in `sendQuestion`. -/
def effLimitSec (big : Challenge) : Nat :=
  match big.timeLimitSec with
  | none => 60
  | some t => if t = 0 then 60 else t

/-- The `newQuestion` payload sent to the connection holding role A:
built solely from the challenge's shared metadata and role A's view. -/
def questionPayloadA (big : Challenge) (rls : Roles) : NewQuestionPayload :=
  ⟨big.title, big.baseScore, effLimitSec big, viewText rls.A, "A"⟩

/-- The `newQuestion` payload sent to the connection holding role B. -/
def questionPayloadB (big : Challenge) (rls : Roles) : NewQuestionPayload :=
  ⟨big.title, big.baseScore, effLimitSec big, viewText rls.B, "B"⟩

/-- `sendQuestion(roomId)` (server.js lines 231–259) at wall-clock `now`.
The guard `!r?.currentBig?.roles` aborts with a diagnostic and does not
start the timer. -/
def sendQuestion (r : RoomState) (now : Int) : SendOut :=
  match r.currentBig with
  | none => ⟨r, [.system "出題データが不正です"], false⟩
  | some big =>
    match big.roles with
    | none => ⟨r, [.system "出題データが不正です"], false⟩
    | some rls =>
      let r' := { r with expiresAt := some (now + (effLimitSec big : Int) * 1000) }
      ⟨r',
       [.newQuestion (r.playersA.getD "") (questionPayloadA big rls),
        .newQuestion (r.playersB.getD "") (questionPayloadB big rls)],
       true⟩

/-- Result of `startRound`: updated room, emits, whether a later
`startRound` was scheduled, whether the timer was started. -/
structure RoundOut where
  room : RoomState
  emits : List Emit
  scheduled : Bool
  timerStarted : Bool
deriving DecidableEq, Repr

/-- The candidate list built in `startRound`: catalog entries paired with
their index, keeping those not yet used whose difficulty tag matches the
mode's accepted keys. -/
def eligibleCandidates (challenges : List Challenge) (r : RoomState) :
    List (Nat × Challenge) :=
  challenges.enum.filter
    (fun p => !r.usedIndices.contains p.1 &&
              levelMatches (levelKeysOf r.mode) p.2.level)

/-- The `gameStarted` payload for role A (`startRound`, round 0). -/
def gameStartedPayloadA (r : RoomState) (specimen : Challenge) :
    GameStartedPayload :=
  ⟨r.cumulativeScore, "A", viewForA specimen.roles, specimen.title,
   r.lives, r.mode⟩

/-- The `gameStarted` payload for role B (`startRound`, round 0). -/
def gameStartedPayloadB (r : RoomState) (specimen : Challenge) :
    GameStartedPayload :=
  ⟨r.cumulativeScore, "B", viewForB specimen.roles, specimen.title,
   r.lives, r.mode⟩

/-- `startRound(roomId)` (server.js lines 152–228).  `rand` models the
`Math.random()` draw used to pick among the eligible candidates; `now` is
the wall clock passed through to `sendQuestion`.  The unused JS fields
`currentSubIndex`/`startedAt` (written but never read by these handlers)
are not modelled. -/
def startRound (challenges : List Challenge) (rand : Nat) (now : Int)
    (r : RoomState) : RoundOut :=
  if r.round ≥ 3 then
    { room := { r with status := .between, round := 0, cumulativeScore := 0,
                       usedIndices := [], currentIdx := none, currentBig := none },
      emits := [.gameFinished "ゲーム終了！" r.cumulativeScore],
      scheduled := false, timerStarted := false }
  else if r.playersA = none ∨ r.playersB = none then
    { room := { r with status := .waiting },
      emits := [.system "相方を待っています…"],
      scheduled := false, timerStarted := false }
  else
    match eligibleCandidates challenges r with
    | [] =>
      { room := r,
        emits := [.system ("モード:" ++ r.mode.getD "null" ++ " に対応する問題がありません")],
        scheduled := false, timerStarted := false }
    | c :: cs =>
      let chosen := (c :: cs).getD (rand % (c :: cs).length) c
      let index := chosen.1
      let specimen := chosen.2
      let r1 := { r with currentIdx := some index,
                         usedIndices := r.usedIndices ++ [index],
                         currentBig := some specimen }
      let startEmits : List Emit :=
        if r1.round = 0 then
          [.gameStarted (r1.playersA.getD "") (gameStartedPayloadA r1 specimen),
           .gameStarted (r1.playersB.getD "") (gameStartedPayloadB r1 specimen)]
        else []
      let r2 := { r1 with round := r1.round + 1, status := .playing }
      let sq := sendQuestion r2 now
      { room := sq.room, emits := startEmits ++ sq.emits,
        scheduled := false, timerStarted := sq.timerStarted }

/-- Acknowledgement sent to the `submitAnswer` callback. -/
inductive Ack where
  | err (code : String)
  | correctAck (score : Nat)
  | wrongAck (gameOver : Bool)
deriving DecidableEq, Repr

/-- Result of the `submitAnswer` handler. -/
structure SubmitOut where
  room : Option RoomState
  emits : List Emit
  ack : Ack
  scheduled : Bool
deriving DecidableEq, Repr

/-- The `submitAnswer` socket handler (server.js lines 407–452) on the
room looked up for the given roomId (`none` if absent). -/
def submitAnswer (regexTest : String → String → String → Bool)
    (oroom : Option RoomState) (answer : Option String) (remainMs : Int) :
    SubmitOut :=
  match oroom with
  | none => ⟨none, [], .err "NOT_PLAYING", false⟩
  | some r =>
    if r.status ≠ .playing then ⟨some r, [], .err "NOT_PLAYING", false⟩
    else
      match r.currentBig with
      | none => ⟨some r, [], .err "NO_QUESTION", false⟩
      | some specimen =>
        match specimen.answer with
        | none => ⟨some r, [], .err "NO_QUESTION", false⟩
        | some conf =>
          if matchAnswer regexTest (some conf) answer then
            let finalScore := computeScore specimen.baseScore r.timeLimitSec remainMs
            let cum := r.cumulativeScore + finalScore
            let r' := { r with cumulativeScore := cum, currentBig := none,
                               currentIdx := none, round := r.round + 1 }
            ⟨some r',
             [.answerResult true (some finalScore) (some cum), .updateScore cum],
             .correctAck finalScore, true⟩
          else
            if r.mode = some "Hard" ∨ r.mode = some "Normal" then
              let lives1 := effLivesInit r - 1
              let r1 := { r with lives := some lives1 }
              if lives1 ≤ 0 then
                ⟨some { r1 with status := .between },
                 [.livesUpdate lives1,
                  .gameFinished "ライフが尽きました…ゲーム終了！" r1.cumulativeScore],
                 .wrongAck true, false⟩
              else
                ⟨some r1, [.livesUpdate lives1, .answerResult false none none],
                 .wrongAck false, false⟩
            else
              ⟨some r, [.answerResult false none none], .wrongAck false, false⟩

/-- Acknowledgement sent to the `joinRoom` callback. -/
inductive JoinAck where
  | okJoin (roomStatus : Status)
  | errJoin (code : String)
deriving DecidableEq, Repr

/-- Result of the `joinRoom` handler. -/
structure JoinOut where
  room : Option RoomState
  emits : List Emit
  ack : JoinAck
deriving DecidableEq, Repr

/-- The `joinRoom` socket handler (server.js lines 346–363).  `adapterSize`
is the transport-level room occupancy `io.sockets.adapter.rooms.get(roomId)?.size || 0`
before the join.  Note: joining touches only the `waiting` list, never the
`players` role slots. -/
def joinRoom (oroom : Option RoomState) (socketId : String)
    (adapterSize : Nat) : JoinOut :=
  match oroom with
  | none => ⟨none, [], .errJoin "ROOM_NOT_FOUND"⟩
  | some r =>
    if adapterSize ≥ 2 then ⟨some r, [], .errJoin "ROOM_FULL"⟩
    else
      let r' := { r with waiting := r.waiting ++ [socketId] }
      let newSize := adapterSize + 1
      ⟨some r',
       [.roomUpdate (decide (newSize ≥ 1)) (decide (newSize ≥ 2)) r'.waiting.length],
       .okJoin r.status⟩

/-- The `continueGame` socket handler (server.js lines 493–517).
`roomSockets` is the transport-level membership the waiting list is rebuilt
from.  `currentBig`/`currentIdx` are NOT among the reset fields. -/
def continueGame (oroom : Option RoomState) (roomSockets : List String) :
    Option RoomState × List Emit :=
  match oroom with
  | none => (none, [])
  | some r =>
    let r' := { r with round := 0, cumulativeScore := 0, usedIndices := [],
                       status := .waiting, ready := [], mode := none,
                       lives := none, waiting := roomSockets }
    let size := roomSockets.length
    (some r',
     [.roomReset "新しいゲームの準備中… Ready を押してください",
      .roomUpdate (decide (size ≥ 1)) (decide (size ≥ 2)) r'.waiting.length,
      .readyUpdate false false])

/-- `first.timeLimitSec || 300` where `first = challenges[0] || {timeLimitSec:300,…}`. -/
def initialTimeLimit (challenges : List Challenge) : Nat :=
  match challenges.head? with
  | none => 300
  | some c =>
    match c.timeLimitSec with
    | none => 300
    | some t => if t = 0 then 300 else t

/-- The room state installed by the `createRoom` handler
(server.js lines 313–326). -/
def initialRoom (challenges : List Challenge) : RoomState :=
  { playersA := none, playersB := none, waiting := [], status := .waiting,
    currentIdx := none, usedIndices := [], expiresAt := none,
    timeLimitSec := initialTimeLimit challenges, round := 0,
    cumulativeScore := 0, mode := none, lives := none, ready := [],
    currentBig := none }

/-- The 60-second disuse check scheduled by `createRoom`
(server.js lines 329–340): the room is deleted iff it still exists, its
status is `waiting` and BOTH role slots are `null`. -/
def disuseCheckDeletes : Option RoomState → Bool
  | none => false
  | some room =>
    decide (room.status = Status.waiting ∧ room.playersA = none ∧ room.playersB = none)

/-- The process-wide `rooms` map, as an association list. -/
def RoomsMap := List (String × RoomState)

/-- `rooms.get(roomId)`. -/
def lookupRoom (rooms : RoomsMap) (roomId : String) : Option RoomState :=
  (List.find? (fun p => p.1 == roomId) rooms).map Prod.snd

/-- Writing back a handler's room (a no-op when the handler saw no room,
matching the in-place mutation of the JS object held in the map). -/
def saveRoom (rooms : RoomsMap) (roomId : String) :
    Option RoomState → RoomsMap
  | none => rooms
  | some r => List.map (fun p => if p.1 == roomId then (roomId, r) else p) rooms

/-- The `submitAnswer` handler at the `rooms`-map level: look the room up,
run the handler, write the room back. -/
def submitAnswerTop (regexTest : String → String → String → Bool)
    (rooms : RoomsMap) (roomId : String) (answer : Option String)
    (remainMs : Int) : RoomsMap × SubmitOut :=
  let out := submitAnswer regexTest (lookupRoom rooms roomId) answer remainMs
  (saveRoom rooms roomId out.room, out)

/-- The score the specification's formula prescribes:
`max(0, S - (T - floor(R/1000)))` with `T` read as the CHALLENGE's own time
limit.  Used to compare the spec's formula against the handler. -/
def claimedScore (S : Nat) (T : Nat) (R : Int) : Int :=
  max 0 ((S : Int) - ((T : Int) - Int.fdiv R 1000))

/-! ## Concrete fixtures for closed instances -/

/-- A concrete stand-in for the JS regex engine in closed statements: no
pattern matches anything (the fixtures below only use `exact` specs, which
never consult it). -/
def noRegex : String → String → String → Bool := fun _ _ _ => false

/-- Exact answer spec with literal "x". -/
def confX : AnswerConf := { type := "exact", value := some "x" }

/-- Exact answer spec with the empty literal. -/
def confEmpty : AnswerConf := { type := "exact", value := some "" }

/-- Roles object with views "vA" / "vB". -/
def rolesQ : Roles := ⟨some ⟨some "vA"⟩, some ⟨some "vB"⟩⟩

/-- Same A-view as `rolesQ`, different B-view. -/
def rolesQB : Roles := ⟨some ⟨some "vA"⟩, some ⟨some "OTHER"⟩⟩

/-- A normal-level challenge: base score 100, time limit 60s, exact
answer "x". -/
def chQ : Challenge :=
  { title := "q1", level := some "normal", baseScore := some 100,
    timeLimitSec := some 60, roles := some rolesQ, answer := some confX }

/-- `chQ` with role B's view text changed and everything else identical. -/
def chQB : Challenge := { chQ with roles := some rolesQB }

/-- A Normal-mode room mid-game: both players present and ready, round 2,
40 cumulative points, one life left, `chQ` active, round already expired at
wall-clock time 2000.  (Reachable from a fresh room: playerReady twice in
Normal mode starts with 5 lives; four wrong answers across the first rounds
leave 1.) -/
def roomPlaying : RoomState :=
  { playersA := some "sa", playersB := some "sb", waiting := [],
    status := .playing, currentIdx := some 0, usedIndices := [0],
    expiresAt := some 1000, timeLimitSec := 60, round := 2,
    cumulativeScore := 40, mode := some "Normal", lives := some 1,
    ready := ["sa", "sb"], currentBig := some chQ }

/-! ## Helper lemmas -/

theorem getD_mem {α : Type} {l : List α} {d : α} (hd : d ∈ l) (n : Nat) :
    l.getD n d ∈ l := by
  rcases Nat.lt_or_ge n l.length with h | h
  · rw [List.getD_eq_getElem l d h]; exact List.getElem_mem h
  · rw [List.getD_eq_default l d h]; exact hd

/-- `sendQuestion` touches no room field except `expiresAt`. -/
theorem sendQuestion_room_frame (r : RoomState) (now : Int) :
    (sendQuestion r now).room.playersA = r.playersA ∧
    (sendQuestion r now).room.playersB = r.playersB ∧
    (sendQuestion r now).room.status = r.status ∧
    (sendQuestion r now).room.currentIdx = r.currentIdx ∧
    (sendQuestion r now).room.usedIndices = r.usedIndices ∧
    (sendQuestion r now).room.round = r.round ∧
    (sendQuestion r now).room.cumulativeScore = r.cumulativeScore ∧
    (sendQuestion r now).room.mode = r.mode ∧
    (sendQuestion r now).room.lives = r.lives ∧
    (sendQuestion r now).room.currentBig = r.currentBig ∧
    (sendQuestion r now).room.timeLimitSec = r.timeLimitSec := by
  cases hc : r.currentBig with
  | none => simp [sendQuestion, hc]
  | some big =>
    cases hr : big.roles with
    | none => simp [sendQuestion, hc, hr]
    | some rls => simp [sendQuestion, hc, hr]

/-- The timer callback always returns the room it was given (possibly with
`lives`/`status` updated), and never touches the round counter, the score,
the used indices, or the active challenge. -/
theorem onTick_some_frame (r : RoomState) (now : Int) :
    ∃ r', (onTick (some r) now).room = some r' ∧
      r'.round = r.round ∧ r'.cumulativeScore = r.cumulativeScore ∧
      r'.usedIndices = r.usedIndices ∧ r'.currentIdx = r.currentIdx ∧
      r'.currentBig = r.currentBig ∧ r'.playersA = r.playersA ∧
      r'.playersB = r.playersB ∧ r'.timeLimitSec = r.timeLimitSec := by
  simp only [onTick]
  split_ifs with h1 h2 h3 h4
  · exact ⟨r, rfl, rfl, rfl, rfl, rfl, rfl, rfl, rfl, rfl⟩
  · exact ⟨_, rfl, rfl, rfl, rfl, rfl, rfl, rfl, rfl, rfl⟩
  · exact ⟨_, rfl, rfl, rfl, rfl, rfl, rfl, rfl, rfl, rfl⟩
  · exact ⟨_, rfl, rfl, rfl, rfl, rfl, rfl, rfl, rfl, rfl⟩
  · exact ⟨r, rfl, rfl, rfl, rfl, rfl, rfl, rfl, rfl, rfl⟩

/-- Timer expiry in Normal/Hard mode with at most one (effective) life left:
the tick decrements lives, emits `gameFinished`, stops the timer, schedules
nothing — and changes nothing else (in particular `status` stays as it
was). -/
theorem onTick_gameOver (r : RoomState) (now : Int)
    (hst : r.status = Status.playing)
    (hmode : r.mode = some "Hard" ∨ r.mode = some "Normal")
    (hl : effLivesInit r ≤ 1)
    (hexp : r.expiresAt.getD 0 - now ≤ 0) :
    onTick (some r) now =
      ⟨some { r with lives := some (effLivesInit r - 1) },
       [.timer 0, .livesUpdate (effLivesInit r - 1),
        .gameFinished "ライフが尽きました…ゲーム終了！" r.cumulativeScore],
       true, false⟩ := by
  have hmax : max 0 (r.expiresAt.getD 0 - now) = 0 := max_eq_left hexp
  simp only [onTick]
  rw [if_neg (by simp [hst])]
  rw [hmax]
  rw [if_pos le_rfl, if_pos hmode, if_pos (by omega : effLivesInit r - 1 ≤ 0)]

/-- The handler's score computation written as the closed-form formula over
the ROOM's stored time limit. -/
theorem computeScore_formula (b : Option Nat) (T : Nat) (R : Int) :
    computeScore b T R =
      (max 0 ((effBaseScore b : Int) - ((T : Int) - Int.fdiv R 1000))).toNat := by
  simp [computeScore]

/-- Characterisation of the correct-answer branch of `submitAnswer`. -/
theorem submitAnswer_correct (rt : String → String → String → Bool)
    (r : RoomState) (ans : Option String) (R : Int)
    (big : Challenge) (conf : AnswerConf)
    (hst : r.status = Status.playing)
    (hbig : r.currentBig = some big)
    (hconf : big.answer = some conf)
    (hm : matchAnswer rt (some conf) ans = true) :
    submitAnswer rt (some r) ans R =
      ⟨some { r with
          cumulativeScore := r.cumulativeScore + computeScore big.baseScore r.timeLimitSec R,
          currentBig := none, currentIdx := none, round := r.round + 1 },
       [.answerResult true (some (computeScore big.baseScore r.timeLimitSec R))
          (some (r.cumulativeScore + computeScore big.baseScore r.timeLimitSec R)),
        .updateScore (r.cumulativeScore + computeScore big.baseScore r.timeLimitSec R)],
       .correctAck (computeScore big.baseScore r.timeLimitSec R), true⟩ := by
  simp only [submitAnswer]
  rw [if_neg (by simp [hst])]
  simp only [hbig, hconf, hm, if_pos]

/-- Characterisation of the wrong-answer game-over branch of
`submitAnswer` (Normal/Hard, at most one effective life left). -/
theorem submitAnswer_wrong_gameOver (rt : String → String → String → Bool)
    (r : RoomState) (ans : Option String) (R : Int)
    (big : Challenge) (conf : AnswerConf)
    (hst : r.status = Status.playing)
    (hbig : r.currentBig = some big)
    (hconf : big.answer = some conf)
    (hm : matchAnswer rt (some conf) ans = false)
    (hmode : r.mode = some "Hard" ∨ r.mode = some "Normal")
    (hl : effLivesInit r ≤ 1) :
    submitAnswer rt (some r) ans R =
      ⟨some { r with lives := some (effLivesInit r - 1), status := Status.between },
       [.livesUpdate (effLivesInit r - 1),
        .gameFinished "ライフが尽きました…ゲーム終了！" r.cumulativeScore],
       .wrongAck true, false⟩ := by
  simp only [submitAnswer]
  rw [if_neg (by simp [hst])]
  simp only [hbig, hconf, hm]
  rw [if_neg (by simp), if_pos hmode, if_pos (by omega : effLivesInit r - 1 ≤ 0)]

/-- The round-limit branch of `startRound` (round ≥ 3): `gameFinished` with
the final cumulative score, scores/round/indices reset — and status set to
`between`. -/
theorem startRound_finish (challenges : List Challenge) (rand : Nat) (now : Int)
    (r : RoomState) (h : 3 ≤ r.round) :
    startRound challenges rand now r =
      ⟨{ r with status := Status.between, round := 0, cumulativeScore := 0,
                usedIndices := [], currentIdx := none, currentBig := none },
       [.gameFinished "ゲーム終了！" r.cumulativeScore], false, false⟩ := by
  simp only [startRound]
  rw [if_pos h]

/-- The waiting-for-partner branch of `startRound`. -/
theorem startRound_waitingPartner (challenges : List Challenge) (rand : Nat)
    (now : Int) (r : RoomState) (h : ¬ 3 ≤ r.round)
    (hp : r.playersA = none ∨ r.playersB = none) :
    startRound challenges rand now r =
      ⟨{ r with status := Status.waiting },
       [.system "相方を待っています…"], false, false⟩ := by
  simp only [startRound]
  rw [if_neg h, if_pos hp]

/-- The exhausted-candidates branch of `startRound`: a diagnostic is
emitted and the room is returned completely unchanged. -/
theorem startRound_noCandidates (challenges : List Challenge) (rand : Nat)
    (now : Int) (r : RoomState) (h : ¬ 3 ≤ r.round)
    (hA : r.playersA ≠ none) (hB : r.playersB ≠ none)
    (hc : eligibleCandidates challenges r = []) :
    startRound challenges rand now r =
      ⟨r, [.system ("モード:" ++ r.mode.getD "null" ++ " に対応する問題がありません")],
       false, false⟩ := by
  simp only [startRound]
  rw [if_neg h, if_neg (fun hp => hp.elim hA hB)]
  simp only [hc]

/-- The selecting branch of `startRound`: some eligible candidate is
chosen, recorded in `currentIdx`/`usedIndices`/`currentBig`, the round
counter is incremented and status becomes `playing`. -/
theorem startRound_select (challenges : List Challenge) (rand : Nat) (now : Int)
    (r : RoomState) (h : ¬ 3 ≤ r.round)
    (hA : r.playersA ≠ none) (hB : r.playersB ≠ none)
    (c : Nat × Challenge) (cs : List (Nat × Challenge))
    (hc : eligibleCandidates challenges r = c :: cs) :
    ∃ chosen ∈ eligibleCandidates challenges r,
      (startRound challenges rand now r).room.currentIdx = some chosen.1 ∧
      (startRound challenges rand now r).room.usedIndices = r.usedIndices ++ [chosen.1] ∧
      (startRound challenges rand now r).room.currentBig = some chosen.2 ∧
      (startRound challenges rand now r).room.round = r.round + 1 ∧
      (startRound challenges rand now r).room.status = Status.playing ∧
      (startRound challenges rand now r).room.cumulativeScore = r.cumulativeScore := by
  have hmem : (c :: cs).getD (rand % (c :: cs).length) c ∈ eligibleCandidates challenges r := by
    rw [hc]; exact getD_mem (List.mem_cons_self c cs) _
  refine ⟨(c :: cs).getD (rand % (c :: cs).length) c, hmem, ?_⟩
  simp only [startRound]
  rw [if_neg h, if_neg (fun hp => hp.elim hA hB)]
  simp only [hc]
  obtain ⟨e1, e2, e3, e4, e5, e6, e7, e8, e9, e10, e11⟩ :=
    sendQuestion_room_frame { r with
      currentIdx := some ((c :: cs).getD (rand % (c :: cs).length) c).1,
      usedIndices := r.usedIndices ++ [((c :: cs).getD (rand % (c :: cs).length) c).1],
      currentBig := some ((c :: cs).getD (rand % (c :: cs).length) c).2,
      round := r.round + 1, status := Status.playing } now
  exact ⟨e4, e5, e10, e6, e3, e7⟩

/-- Whatever `startRound` selects was an eligible (hence unused)
candidate. -/
theorem eligible_not_used (challenges : List Challenge) (r : RoomState)
    (p : Nat × Challenge) (hp : p ∈ eligibleCandidates challenges r) :
    p.1 ∉ r.usedIndices := by
  intro hmem
  have h2 := (List.mem_filter.mp hp).2
  simp [hmem] at h2

/-- `continueGame` on an existing room: the in-place reset. -/
theorem continueGame_some (r : RoomState) (socks : List String) :
    (continueGame (some r) socks).1 =
      some { r with round := 0, cumulativeScore := 0, usedIndices := [],
                    status := Status.waiting, ready := [], mode := none,
                    lives := none, waiting := socks } := rfl

/-- `submitAnswer` never decreases the round counter or the cumulative
score (in particular it never resets them to 0 from a nonzero value). -/
theorem submitAnswer_some_frame (rt : String → String → String → Bool)
    (r : RoomState) (ans : Option String) (R : Int) :
    ∃ r', (submitAnswer rt (some r) ans R).room = some r' ∧
      r.round ≤ r'.round ∧ r.cumulativeScore ≤ r'.cumulativeScore := by
  simp only [submitAnswer]
  by_cases h1 : r.status ≠ Status.playing
  · rw [if_pos h1]; exact ⟨r, rfl, le_rfl, le_rfl⟩
  rw [if_neg h1]
  cases hb : r.currentBig with
  | none => exact ⟨r, rfl, le_rfl, le_rfl⟩
  | some specimen =>
    cases ha : specimen.answer with
    | none => simp only [ha]; exact ⟨r, rfl, le_rfl, le_rfl⟩
    | some conf =>
      simp only [ha]
      by_cases hm : matchAnswer rt (some conf) ans = true
      · rw [if_pos hm]
        exact ⟨_, rfl, Nat.le_succ _, Nat.le_add_right _ _⟩
      · rw [if_neg hm]
        by_cases hmo : r.mode = some "Hard" ∨ r.mode = some "Normal"
        · rw [if_pos hmo]
          by_cases hl : effLivesInit r - 1 ≤ 0
          · rw [if_pos hl]; exact ⟨_, rfl, le_rfl, le_rfl⟩
          · rw [if_neg hl]; exact ⟨_, rfl, le_rfl, le_rfl⟩
        · rw [if_neg hmo]; exact ⟨r, rfl, le_rfl, le_rfl⟩

/-- Outside the round-limit branch, `startRound` never resets the round
counter or the cumulative score. -/
theorem startRound_no_reset (challenges : List Challenge) (rand : Nat)
    (now : Int) (r : RoomState) (h : ¬ 3 ≤ r.round) :
    r.round ≤ (startRound challenges rand now r).room.round ∧
    (startRound challenges rand now r).room.cumulativeScore = r.cumulativeScore := by
  by_cases hp : r.playersA = none ∨ r.playersB = none
  · rw [startRound_waitingPartner challenges rand now r h hp]; exact ⟨le_rfl, rfl⟩
  push_neg at hp
  cases hc : eligibleCandidates challenges r with
  | nil =>
    rw [startRound_noCandidates challenges rand now r h hp.1 hp.2 hc]
    exact ⟨le_rfl, rfl⟩
  | cons c cs =>
    obtain ⟨ch, _, _, _, _, hr, _, hcum⟩ :=
      startRound_select challenges rand now r h hp.1 hp.2 c cs hc
    exact ⟨by rw [hr]; omega, hcum⟩

/-! ## Claim theorems -/


/-- C10: `submitAnswer` on a roomId with no room is rejected with
`NOT_PLAYING` (never `ROOM_NOT_FOUND`), with no emits and the rooms map
unchanged. -/
theorem submitAnswer_unknown_room_not_playing
    (rt : String → String → String → Bool) (rooms : RoomsMap)
    (roomId : String) (answer : Option String) (remainMs : Int)
    (h : lookupRoom rooms roomId = none) :
    (submitAnswerTop rt rooms roomId answer remainMs).1 = rooms ∧
    (submitAnswerTop rt rooms roomId answer remainMs).2.ack = .err "NOT_PLAYING" ∧
    (submitAnswerTop rt rooms roomId answer remainMs).2.ack ≠ .err "ROOM_NOT_FOUND" ∧
    (submitAnswerTop rt rooms roomId answer remainMs).2.emits = [] := by
  simp [submitAnswerTop, submitAnswer, h, saveRoom]

theorem submitAnswer_unknown_room_not_playing_witness :
    (submitAnswerTop noRegex [] "abc" (some "x") 1000).1 = [] ∧
    (submitAnswerTop noRegex [] "abc" (some "x") 1000).2.ack = .err "NOT_PLAYING" ∧
    (submitAnswerTop noRegex [] "abc" (some "x") 1000).2.ack ≠ .err "ROOM_NOT_FOUND" ∧
    (submitAnswerTop noRegex [] "abc" (some "x") 1000).2.emits = [] :=
  submitAnswer_unknown_room_not_playing noRegex [] "abc" (some "x") 1000 rfl

/-- C1 evaluation: at `roomPlaying` (Normal mode, 1 life) a timeout fires
`gameFinished` but leaves status `playing`; a following wrong submission
then drives lives to -1 and fires `gameFinished` a second time. -/
theorem timeout_then_submit_drives_lives_negative :
    (onTick (some roomPlaying) 2000).emits.countP Emit.isGameFinished = 1 ∧
    (onTick (some roomPlaying) 2000).room.map (fun x => x.lives) = some (some 0) ∧
    (onTick (some roomPlaying) 2000).room.map (fun x => x.status) = some Status.playing ∧
    (submitAnswer noRegex (onTick (some roomPlaying) 2000).room (some "zzz") 5000).emits.countP
      Emit.isGameFinished = 1 ∧
    (submitAnswer noRegex (onTick (some roomPlaying) 2000).room (some "zzz") 5000).room.map
      (fun x => x.lives) = some (some (-1)) := by
  decide



/-- C9: timer expiry in Normal/Hard with the (lazily initialised) lives at
most 1 emits `gameFinished` and stops the timer, but only `lives` changes:
status stays `playing` and round, score, used indices and the active
challenge are untouched, so a later `submitAnswer` against the same room is
not rejected. -/
theorem timeout_gameover_keeps_room_playing
    (r : RoomState) (now : Int) (rt : String → String → String → Bool)
    (ans : Option String) (R : Int) (big : Challenge) (conf : AnswerConf)
    (hst : r.status = Status.playing)
    (hmode : r.mode = some "Hard" ∨ r.mode = some "Normal")
    (hl : effLivesInit r ≤ 1)
    (hexp : r.expiresAt.getD 0 - now ≤ 0)
    (hbig : r.currentBig = some big)
    (hconf : big.answer = some conf) :
    (onTick (some r) now).room = some { r with lives := some (effLivesInit r - 1) } ∧
    (onTick (some r) now).emits =
      [.timer 0, .livesUpdate (effLivesInit r - 1),
       .gameFinished "ライフが尽きました…ゲーム終了！" r.cumulativeScore] ∧
    (onTick (some r) now).stopped = true ∧
    (onTick (some r) now).scheduled = false ∧
    ({ r with lives := some (effLivesInit r - 1) } : RoomState).status = Status.playing ∧
    (submitAnswer rt (some { r with lives := some (effLivesInit r - 1) }) ans R).ack
      ≠ Ack.err "NOT_PLAYING" ∧
    (submitAnswer rt (some { r with lives := some (effLivesInit r - 1) }) ans R).ack
      ≠ Ack.err "NO_QUESTION" := by
  rw [onTick_gameOver r now hst hmode hl hexp]
  refine ⟨rfl, rfl, rfl, rfl, hst, ?_, ?_⟩ <;>
  · set rPost : RoomState := { r with lives := some (effLivesInit r - 1) } with hdef
    have hst' : rPost.status = Status.playing := hst
    have hbig' : rPost.currentBig = some big := hbig
    by_cases hm : matchAnswer rt (some conf) ans = true
    · rw [submitAnswer_correct rt rPost ans R big conf hst' hbig' hconf hm]
      simp
    · have hm' : matchAnswer rt (some conf) ans = false := by
        simpa using hm
      have hl' : effLivesInit rPost ≤ 1 := by
        have : effLivesInit rPost = effLivesInit r - 1 := rfl
        omega
      rw [submitAnswer_wrong_gameOver rt rPost ans R big conf hst' hbig' hconf hm'
            (by exact hmode) hl']
      simp

theorem timeout_gameover_keeps_room_playing_witness :
    (onTick (some roomPlaying) 2000).room =
      some { roomPlaying with lives := some (effLivesInit roomPlaying - 1) } ∧
    (onTick (some roomPlaying) 2000).emits =
      [.timer 0, .livesUpdate (effLivesInit roomPlaying - 1),
       .gameFinished "ライフが尽きました…ゲーム終了！" roomPlaying.cumulativeScore] ∧
    (onTick (some roomPlaying) 2000).stopped = true ∧
    (onTick (some roomPlaying) 2000).scheduled = false ∧
    ({ roomPlaying with lives := some (effLivesInit roomPlaying - 1) } : RoomState).status
      = Status.playing ∧
    (submitAnswer noRegex
        (some { roomPlaying with lives := some (effLivesInit roomPlaying - 1) })
        (some "zzz") 500).ack ≠ Ack.err "NOT_PLAYING" ∧
    (submitAnswer noRegex
        (some { roomPlaying with lives := some (effLivesInit roomPlaying - 1) })
        (some "zzz") 500).ack ≠ Ack.err "NO_QUESTION" :=
  timeout_gameover_keeps_room_playing roomPlaying 2000 noRegex (some "zzz") 500 chQ confX
    rfl (Or.inr rfl) (by decide) (by decide) rfl rfl



/-- C2 counterexample: in a room whose stored `timeLimitSec` is 300 while
the active challenge's own `timeLimitSec` is 60 (base score 100), a correct
answer with `remainMs = 45000` is awarded 0 points, not the
`max(0, 100 - (60 - 45)) = 85` the claim's challenge-based formula
prescribes. -/
theorem score_ignores_challenge_time_limit_counterexample :
    ({ roomPlaying with timeLimitSec := 300 } : RoomState).currentBig = some chQ ∧
    chQ.timeLimitSec = some 60 ∧ chQ.baseScore = some 100 ∧
    (submitAnswer noRegex (some { roomPlaying with timeLimitSec := 300 })
        (some "x") 45000).ack = Ack.correctAck 0 ∧
    claimedScore 100 60 45000 = 85 ∧
    Ack.correctAck 0 ≠ Ack.correctAck 85 := by
  decide

/-- C2 amended: a correct submission is awarded
`max(0, S' - (T_room - floor(R/1000)))` points where `S'` is the
challenge's base score with `0`/missing defaulting to 100 and `T_room` is
the ROOM's stored `timeLimitSec` (captured at `createRoom` from the first
catalog entry), not the active challenge's time limit. -/
theorem submitAnswer_score_formula_room_limit
    (rt : String → String → String → Bool) (r : RoomState)
    (ans : Option String) (R : Int) (big : Challenge) (conf : AnswerConf)
    (hst : r.status = Status.playing)
    (hbig : r.currentBig = some big)
    (hconf : big.answer = some conf)
    (hm : matchAnswer rt (some conf) ans = true) :
    (submitAnswer rt (some r) ans R).ack =
      Ack.correctAck
        (max 0 ((effBaseScore big.baseScore : Int) -
                ((r.timeLimitSec : Int) - Int.fdiv R 1000))).toNat ∧
    (submitAnswer rt (some r) ans R).room =
      some { r with
        cumulativeScore := r.cumulativeScore +
          (max 0 ((effBaseScore big.baseScore : Int) -
                  ((r.timeLimitSec : Int) - Int.fdiv R 1000))).toNat,
        currentBig := none, currentIdx := none, round := r.round + 1 } := by
  rw [submitAnswer_correct rt r ans R big conf hst hbig hconf hm]
  rw [computeScore_formula]
  exact ⟨rfl, rfl⟩

theorem submitAnswer_score_formula_room_limit_witness :
    (submitAnswer noRegex (some roomPlaying) (some "x") 45000).ack =
      Ack.correctAck 85 := by
  have h := submitAnswer_score_formula_room_limit noRegex roomPlaying
    (some "x") 45000 chQ confX rfl rfl rfl (by decide)
  rw [h.1]
  decide



/-- C3 counterexample: with every eligible index used
(catalog `[chQ]`, `usedIndices = [0]`, both players present, round 1),
`startRound` neither resets `usedIndices` nor selects anything — the room
is returned unchanged, contradicting the claimed reset-then-select. -/
theorem startRound_exhaustion_counterexample :
    (startRound [chQ] 0 0 { roomPlaying with round := 1, currentIdx := none, currentBig := none }).room = { roomPlaying with round := 1, currentIdx := none, currentBig := none } ∧
    ({ roomPlaying with round := 1, currentIdx := none, currentBig := none } : RoomState).usedIndices = [0] ∧
    (startRound [chQ] 0 0 { roomPlaying with round := 1, currentIdx := none, currentBig := none }).room.usedIndices ≠ [] ∧
    (startRound [chQ] 0 0 { roomPlaying with round := 1, currentIdx := none, currentBig := none }).room.currentBig = none := by
  decide

/-- C3 amended: `startRound` never selects an index already in
`usedIndices`; but when every eligible index is used it does NOT reset
`usedIndices` — it emits a diagnostic and leaves the room unchanged
(blocking progress).  The reset-on-exhaustion exists only in the helper
`pickRandomUnusedIndex`, which `startRound` does not call. -/
theorem startRound_fresh_selection_no_exhaustion_reset
    (challenges : List Challenge) (rand : Nat) (now : Int) (r : RoomState) :
    (∀ i, (startRound challenges rand now r).room.currentIdx = some i →
        r.currentIdx = some i ∨ i ∉ r.usedIndices) ∧
    (¬ 3 ≤ r.round → r.playersA ≠ none → r.playersB ≠ none →
      eligibleCandidates challenges r = [] →
      (startRound challenges rand now r).room = r ∧
      (startRound challenges rand now r).scheduled = false) ∧
    (∀ n used rnd, 2 ≤ n →
      ((List.range n).filter (fun i => ¬ used.contains i)).isEmpty = true →
      (pickRandomUnusedIndex n used rnd).1 = []) := by
  refine ⟨?_, ?_, ?_⟩
  · intro i hi
    by_cases h : 3 ≤ r.round
    · rw [startRound_finish challenges rand now r h] at hi
      simp at hi
    by_cases hp : r.playersA = none ∨ r.playersB = none
    · rw [startRound_waitingPartner challenges rand now r h hp] at hi
      exact Or.inl hi
    push_neg at hp
    cases hc : eligibleCandidates challenges r with
    | nil =>
      rw [startRound_noCandidates challenges rand now r h hp.1 hp.2 hc] at hi
      exact Or.inl hi
    | cons c cs =>
      obtain ⟨chosen, hmem, hidx, _, _, _, _, _⟩ :=
        startRound_select challenges rand now r h hp.1 hp.2 c cs hc
      rw [hidx] at hi
      right
      cases hi
      exact eligible_not_used challenges r chosen hmem
  · intro h hA hB hc
    rw [startRound_noCandidates challenges rand now r h hA hB hc]
    exact ⟨rfl, rfl⟩
  · intro n used rnd hn hempty
    unfold pickRandomUnusedIndex
    rw [if_neg (by omega : ¬ n ≤ 1)]
    simp only [hempty]
    simp



theorem startRound_fresh_selection_no_exhaustion_reset_witness :
    (startRound [chQ] 0 0 { roomPlaying with round := 1, usedIndices := [], currentIdx := none, currentBig := none }).room = { roomPlaying with round := 1, usedIndices := [], currentIdx := none, currentBig := none } ∨
    (0 ∉ ({ roomPlaying with round := 1, usedIndices := [], currentIdx := none, currentBig := none } : RoomState).usedIndices) := by
  refine Or.inr ?_
  have h := (startRound_fresh_selection_no_exhaustion_reset [chQ] 0 0
    { roomPlaying with round := 1, usedIndices := [], currentIdx := none, currentBig := none }).1 0 (by decide)
  rcases h with h | h
  · exact absurd h (by decide)
  · exact h

/-- C4 counterexample: the round-limit branch sets status to `between`,
not `waiting` as the claim states. -/
theorem startRound_finish_status_counterexample :
    (startRound [] 0 0 { roomPlaying with round := 3 }).room.status = Status.between ∧
    (startRound [] 0 0 { roomPlaying with round := 3 }).room.status ≠ Status.waiting ∧
    (startRound [] 0 0 { roomPlaying with round := 3 }).emits =
      [.gameFinished "ゲーム終了！" 40] := by
  decide

/-- C4 amended: when `startRound` runs with round ≥ 3 it broadcasts
`gameFinished` carrying the final cumulative score and resets round,
cumulativeScore, usedIndices and the current challenge — but sets status to
`between` (not `waiting`), and leaves mode, lives, players and readiness
untouched. -/
theorem startRound_round_limit_finishes
    (challenges : List Challenge) (rand : Nat) (now : Int) (r : RoomState)
    (h : 3 ≤ r.round) :
    (startRound challenges rand now r).emits =
      [.gameFinished "ゲーム終了！" r.cumulativeScore] ∧
    (startRound challenges rand now r).room.status = Status.between ∧
    (startRound challenges rand now r).room.round = 0 ∧
    (startRound challenges rand now r).room.cumulativeScore = 0 ∧
    (startRound challenges rand now r).room.usedIndices = [] ∧
    (startRound challenges rand now r).room.currentIdx = none ∧
    (startRound challenges rand now r).room.currentBig = none ∧
    (startRound challenges rand now r).room.mode = r.mode ∧
    (startRound challenges rand now r).room.lives = r.lives ∧
    (startRound challenges rand now r).room.playersA = r.playersA ∧
    (startRound challenges rand now r).room.playersB = r.playersB ∧
    (startRound challenges rand now r).scheduled = false := by
  rw [startRound_finish challenges rand now r h]
  exact ⟨rfl, rfl, rfl, rfl, rfl, rfl, rfl, rfl, rfl, rfl, rfl, rfl⟩

theorem startRound_round_limit_finishes_witness :
    (startRound [] 0 0 { roomPlaying with round := 3 }).room.round = 0 ∧
    (startRound [] 0 0 { roomPlaying with round := 3 }).room.cumulativeScore = 0 :=
  ⟨(startRound_round_limit_finishes [] 0 0 { roomPlaying with round := 3 } (by decide)).2.2.1,
   (startRound_round_limit_finishes [] 0 0 { roomPlaying with round := 3 } (by decide)).2.2.2.1⟩



/-- C5 counterexample: the lives-exhausted game over in `submitAnswer`
(wrong answer at 1 life, Normal mode) emits `gameFinished` but leaves the
round counter at 2 and the cumulative score at 40 — no reset. -/
theorem lives_gameover_no_reset_counterexample :
    (submitAnswer noRegex (some roomPlaying) (some "zzz") 1000).emits.countP
      Emit.isGameFinished = 1 ∧
    (submitAnswer noRegex (some roomPlaying) (some "zzz") 1000).room.map
      (fun x => x.round) = some 2 ∧
    (submitAnswer noRegex (some roomPlaying) (some "zzz") 1000).room.map
      (fun x => x.cumulativeScore) = some 40 ∧
    roomPlaying.round = 2 ∧ roomPlaying.cumulativeScore = 40 ∧ (2 : Nat) ≠ 0 := by
  decide

/-- C5 amended: round and cumulativeScore are reset to 0 exactly by the
round-limit `gameFinished` branch of `startRound` and by `continueGame`;
the lives-exhausted `gameFinished` paths (timer tick and wrong answer)
leave both untouched, and no other modeled operation (tick, submitAnswer,
joinRoom, non-limit startRound) resets them. -/
theorem round_and_score_reset_only_on_limit_or_continue
    (rt : String → String → String → Bool) :
    (∀ challenges rand now r, 3 ≤ (r : RoomState).round →
       (startRound challenges rand now r).room.round = 0 ∧
       (startRound challenges rand now r).room.cumulativeScore = 0 ∧
       (startRound challenges rand now r).emits.countP Emit.isGameFinished = 1) ∧
    (∀ challenges rand now r, ¬ 3 ≤ (r : RoomState).round →
       r.round ≤ (startRound challenges rand now r).room.round ∧
       (startRound challenges rand now r).room.cumulativeScore = r.cumulativeScore) ∧
    (∀ r socks, ∃ r', (continueGame (some r) socks).1 = some r' ∧
       r'.round = 0 ∧ r'.cumulativeScore = 0) ∧
    (∀ r now, ∃ r', (onTick (some r) now).room = some r' ∧
       r'.round = r.round ∧ r'.cumulativeScore = r.cumulativeScore) ∧
    (∀ r ans R, ∃ r', (submitAnswer rt (some r) ans R).room = some r' ∧
       r.round ≤ r'.round ∧ r.cumulativeScore ≤ r'.cumulativeScore) ∧
    (∀ oroom s n r r', oroom = some r → (joinRoom oroom s n).room = some r' →
       r'.round = r.round ∧ r'.cumulativeScore = r.cumulativeScore) := by
  refine ⟨?_, ?_, ?_, ?_, ?_, ?_⟩
  · intro challenges rand now r h
    rw [startRound_finish challenges rand now r h]
    exact ⟨rfl, rfl, rfl⟩
  · intro challenges rand now r h
    exact startRound_no_reset challenges rand now r h
  · intro r socks
    rw [continueGame_some r socks]
    exact ⟨_, rfl, rfl, rfl⟩
  · intro r now
    obtain ⟨r', h1, h2, h3, _⟩ := onTick_some_frame r now
    exact ⟨r', h1, h2, h3⟩
  · intro r ans R
    exact submitAnswer_some_frame rt r ans R
  · intro oroom s n r r' ho hj
    subst ho
    simp only [joinRoom] at hj
    by_cases hs : n ≥ 2
    · rw [if_pos hs] at hj
      cases hj
      exact ⟨rfl, rfl⟩
    · rw [if_neg hs] at hj
      cases hj
      exact ⟨rfl, rfl⟩

theorem round_and_score_reset_only_on_limit_or_continue_witness :
    (startRound [] 0 0 { roomPlaying with round := 4 }).room.round = 0 ∧
    (startRound [] 0 0 { roomPlaying with round := 4 }).room.cumulativeScore = 0 ∧
    (startRound [] 0 0 { roomPlaying with round := 4 }).emits.countP
      Emit.isGameFinished = 1 :=
  (round_and_score_reset_only_on_limit_or_continue noRegex).1 [] 0 0
    { roomPlaying with round := 4 } (by decide)

/-- C6 counterexample: a fresh room joined by a connection (which sets only
the `waiting` list, not the role slots) still satisfies the 60-second
disuse-deletion predicate — joining alone does not protect a room. -/
theorem joined_room_still_deleted_counterexample :
    (joinRoom (some (initialRoom [])) "s1" 0).ack = JoinAck.okJoin Status.waiting ∧
    (joinRoom (some (initialRoom [])) "s1" 0).room.map
      (fun x => x.waiting) = some ["s1"] ∧
    disuseCheckDeletes (joinRoom (some (initialRoom [])) "s1" 0).room = true := by
  decide

/-- C6 amended: the disuse check deletes exactly the rooms still in
`waiting` status with both role slots empty.  A never-joined fresh room is
deleted; `joinRoom` does not change whether a room is deleted (it never
touches the role slots); a room with a role assigned or whose status has
left `waiting` (e.g. mid-game) is never deleted. -/
theorem disuse_deletion_unaffected_by_join (challenges : List Challenge) :
    disuseCheckDeletes (some (initialRoom challenges)) = true ∧
    (∀ oroom s n r r', oroom = some r → (joinRoom oroom s n).room = some r' →
        disuseCheckDeletes (some r') = disuseCheckDeletes (some r)) ∧
    (∀ r : RoomState, r.playersA ≠ none ∨ r.playersB ≠ none ∨
        r.status ≠ Status.waiting → disuseCheckDeletes (some r) = false) := by
  refine ⟨by simp [disuseCheckDeletes, initialRoom], ?_, ?_⟩
  · intro oroom s n r r' ho hj
    subst ho
    simp only [joinRoom] at hj
    by_cases hs : n ≥ 2
    · rw [if_pos hs] at hj; cases hj; rfl
    · rw [if_neg hs] at hj; cases hj; rfl
  · intro r h
    simp only [disuseCheckDeletes, decide_eq_false_iff_not]
    rintro ⟨h1, h2, h3⟩
    rcases h with h | h | h
    · exact h h2
    · exact h h3
    · exact h h1

theorem disuse_deletion_unaffected_by_join_witness :
    disuseCheckDeletes (some (initialRoom [])) = true ∧
    disuseCheckDeletes (some roomPlaying) = false :=
  ⟨(disuse_deletion_unaffected_by_join []).1,
   (disuse_deletion_unaffected_by_join []).2.2 roomPlaying (Or.inl (by decide))⟩



/-- C7 counterexample: a null (or empty-string) submission against an
`exact` spec whose stored literal is the empty string is judged a
NON-match — the `!ans` guard rejects falsy inputs before normalization —
while the claim says it must match. -/
theorem matchAnswer_null_rejected_counterexample :
    matchAnswer noRegex (some confEmpty) none = false ∧
    matchAnswer noRegex (some confEmpty) (some "") = false ∧
    confEmpty.type = "exact" ∧ confEmpty.value = some "" := by
  decide

/-- C7 amended: `matchAnswer` first rejects falsy submissions (null,
undefined, or the empty string) outright via the `!ans` guard, before any
normalization; only truthy submissions are normalized (trimmed) — so a
whitespace-only submission against an `exact` spec is compared
case-insensitively after trimming (and does match an empty stored
literal), while a null or empty submission never matches anything. -/
theorem matchAnswer_falsy_guard_and_exact_normalization
    (rt : String → String → String → Bool) (conf : AnswerConf) :
    (∀ ans, ansTruthy ans = false → matchAnswer rt (some conf) ans = false) ∧
    matchAnswer rt none (some "a") = false ∧
    (conf.type = "exact" → ∀ s : String, s ≠ "" →
        matchAnswer rt (some conf) (some s) =
          decide (toLowerJS (trimJS s) = toLowerJS (conf.value.getD ""))) := by
  refine ⟨?_, rfl, ?_⟩
  · intro ans h
    simp [matchAnswer, h]
  · intro ht s hs
    simp [matchAnswer, ansTruthy, hs, ht, normalize]

theorem matchAnswer_falsy_guard_and_exact_normalization_witness :
    matchAnswer noRegex (some confEmpty) (some "   ") = true ∧
    matchAnswer noRegex (some confEmpty) none = false := by
  constructor
  · have h := (matchAnswer_falsy_guard_and_exact_normalization noRegex confEmpty).2.2
      rfl "   " (by decide)
    rw [h]
    decide
  · exact (matchAnswer_falsy_guard_and_exact_normalization noRegex confEmpty).1 none rfl

/-- C8: each question dispatch sends role A only A's own view text and
role B only B's (`gameStarted` and `newQuestion` alike): the payload built
for a role reports that role's view, and is unchanged if the other role's
view text is replaced by anything else, as long as the shared metadata
(title, base score, time limit) agrees. -/
theorem question_dispatch_role_confidentiality
    (r : RoomState) (now : Int) (big : Challenge) (rls : Roles)
    (hbig : r.currentBig = some big) (hrl : big.roles = some rls) :
    (sendQuestion r now).emits =
      [.newQuestion (r.playersA.getD "") (questionPayloadA big rls),
       .newQuestion (r.playersB.getD "") (questionPayloadB big rls)] ∧
    (questionPayloadA big rls).view = viewText rls.A ∧
    (questionPayloadB big rls).view = viewText rls.B ∧
    (∀ big2 rls2, big.title = big2.title → big.baseScore = big2.baseScore →
       big.timeLimitSec = big2.timeLimitSec → viewText rls.A = viewText rls2.A →
       questionPayloadA big rls = questionPayloadA big2 rls2) ∧
    (∀ big2 rls2, big.title = big2.title → big.baseScore = big2.baseScore →
       big.timeLimitSec = big2.timeLimitSec → viewText rls.B = viewText rls2.B →
       questionPayloadB big rls = questionPayloadB big2 rls2) ∧
    (gameStartedPayloadA r big).view = viewForA big.roles ∧
    (gameStartedPayloadB r big).view = viewForB big.roles ∧
    (∀ big2, big.title = big2.title → viewForA big.roles = viewForA big2.roles →
       gameStartedPayloadA r big = gameStartedPayloadA r big2) ∧
    (∀ big2, big.title = big2.title → viewForB big.roles = viewForB big2.roles →
       gameStartedPayloadB r big = gameStartedPayloadB r big2) := by
  refine ⟨by simp [sendQuestion, hbig, hrl], rfl, rfl, ?_, ?_, rfl, rfl, ?_, ?_⟩
  · intro big2 rls2 ht hb hl hA
    simp [questionPayloadA, effLimitSec, ht, hb, hl, hA]
  · intro big2 rls2 ht hb hl hB
    simp [questionPayloadB, effLimitSec, ht, hb, hl, hB]
  · intro big2 ht hA
    simp [gameStartedPayloadA, ht, hA]
  · intro big2 ht hB
    simp [gameStartedPayloadB, ht, hB]

theorem question_dispatch_role_confidentiality_witness :
    (sendQuestion roomPlaying 0).emits =
      [.newQuestion "sa" (questionPayloadA chQ rolesQ),
       .newQuestion "sb" (questionPayloadB chQ rolesQ)] ∧
    questionPayloadA chQ rolesQ = questionPayloadA chQB rolesQB ∧
    viewText rolesQ.B ≠ viewText rolesQB.B := by
  have h := question_dispatch_role_confidentiality roomPlaying 0 chQ rolesQ rfl rfl
  exact ⟨h.1, h.2.2.2.1 chQB rolesQB rfl rfl rfl rfl, by decide⟩

end Malwakari
